import Mathlib

/-!
Shallow embedding of the grab-pointer bookkeeping (`GrabbableComponent.cpp`)
and the pressable-button animation logic (`UxtPressableButtonActor.cpp`)
of the MixedReality-UXTools-Unreal repository.

Engine value types (`FVector`, `FQuat`, `FRotator`, `FTransform`) are
modelled over the rationals.  An `FRotator` is identified with the rotation
quaternion it denotes: the engine conversions `FQuat(FRotator)` and
`FQuat::Rotator()` are inverse bijections on canonical representatives, so
the Euler-angle coordinates carry no extra information at this level of
the code.  Engine objects reached through pointers (touch pointer
components) are addressed by a numeric id; the world state supplies each
pointer's component transform as a function of the id.  Delegate
broadcasts, hover locking, audio and material-parameter writes are calls
into host-engine objects outside the modelled component state and are not
tracked.
-/

/-- Model of `FVector` over ℚ. -/
structure Vec3 where
  x : ℚ
  y : ℚ
  z : ℚ
deriving DecidableEq, Repr

def Vec3.zero : Vec3 := ⟨0, 0, 0⟩

def Vec3.add (a b : Vec3) : Vec3 := ⟨a.x + b.x, a.y + b.y, a.z + b.z⟩

def Vec3.sub (a b : Vec3) : Vec3 := ⟨a.x - b.x, a.y - b.y, a.z - b.z⟩

def Vec3.neg (a : Vec3) : Vec3 := ⟨-a.x, -a.y, -a.z⟩

/-- Componentwise product (used for applying a scale). -/
def Vec3.hadamard (a b : Vec3) : Vec3 := ⟨a.x * b.x, a.y * b.y, a.z * b.z⟩

/-- Model of `FVector * float`. -/
def Vec3.scale (a : Vec3) (k : ℚ) : Vec3 := ⟨a.x * k, a.y * k, a.z * k⟩

/-- Model of `FVector / float`. -/
def Vec3.divBy (a : Vec3) (k : ℚ) : Vec3 := ⟨a.x / k, a.y / k, a.z / k⟩

/-- Model of `FQuat` over ℚ. -/
structure Quat where
  w : ℚ
  x : ℚ
  y : ℚ
  z : ℚ
deriving DecidableEq, Repr

def Quat.one : Quat := ⟨1, 0, 0, 0⟩

/-- Hamilton product. -/
def Quat.mul (a b : Quat) : Quat :=
  ⟨a.w * b.w - a.x * b.x - a.y * b.y - a.z * b.z,
   a.w * b.x + a.x * b.w + a.y * b.z - a.z * b.y,
   a.w * b.y - a.x * b.z + a.y * b.w + a.z * b.x,
   a.w * b.z + a.x * b.y - a.y * b.x + a.z * b.w⟩

/-- Conjugate; `FQuat::Inverse` for the unit quaternions the engine keeps. -/
def Quat.conj (a : Quat) : Quat := ⟨a.w, -a.x, -a.y, -a.z⟩

/-- Rotate a vector: vector part of `q * (0, v) * conj q`. -/
def Quat.rotate (q : Quat) (v : Vec3) : Vec3 :=
  let r := q.mul ((Quat.mk 0 v.x v.y v.z).mul q.conj)
  ⟨r.x, r.y, r.z⟩

/-- Model of `FRotator`, identified with the rotation quaternion it denotes. -/
structure FRotator where
  q : Quat
deriving DecidableEq, Repr

/-- Model of `FRotator::ZeroRotator`: zero Euler angles, i.e. the identity rotation. -/
def FRotator.zeroRotator : FRotator := ⟨Quat.one⟩

/-- Model of `FRotator::GetInverse`: `Quaternion().Inverse().Rotator()`. -/
def FRotator.GetInverse (r : FRotator) : FRotator := ⟨r.q.conj⟩

/-- The conversion `FQuat(FRotator)`. -/
def quatOfRotator (r : FRotator) : Quat := r.q

/-- The conversion `FQuat::Rotator()`. -/
def Quat.toRotator (q : Quat) : FRotator := ⟨q⟩

/-- Model of `FTransform` over ℚ (rotation, translation, 3D scale). -/
structure FTransform where
  rotation : Quat
  translation : Vec3
  scale3D : Vec3
deriving DecidableEq, Repr

/-- Model of `FTransform::Identity`. -/
def FTransform.identityT : FTransform := ⟨Quat.one, Vec3.zero, ⟨1, 1, 1⟩⟩

/-- Model of `FTransform::TransformPosition`: `Rotate(Scale3D * V) + Translation`. -/
def FTransform.TransformPosition (T : FTransform) (v : Vec3) : Vec3 :=
  (T.rotation.rotate (T.scale3D.hadamard v)).add T.translation

/-- Model of `FTransform::TransformRotation`: `GetRotation() * Q`. -/
def FTransform.TransformRotation (T : FTransform) (q : Quat) : Quat :=
  T.rotation.mul q

/-- One component of `GetSafeScaleReciprocal`: zero maps to zero. -/
def safeRecip (a : ℚ) : ℚ := if a = 0 then 0 else a⁻¹

/-- Model of `FTransform` composition `A * B` (apply `A` first, then `B`):
rotation `B.R * A.R`, scale `A.S * B.S`,
translation `B.R.Rotate(B.S * A.T) + B.T`. -/
def FTransform.mulT (A B : FTransform) : FTransform :=
  ⟨B.rotation.mul A.rotation,
   (B.rotation.rotate (B.scale3D.hadamard A.translation)).add B.translation,
   A.scale3D.hadamard B.scale3D⟩

/-- Model of `FTransform::Inverse`. -/
def FTransform.inverse (T : FTransform) : FTransform :=
  let invScale : Vec3 := ⟨safeRecip T.scale3D.x, safeRecip T.scale3D.y, safeRecip T.scale3D.z⟩
  let invRot := T.rotation.conj
  ⟨invRot, invRot.rotate (invScale.hadamard T.translation.neg), invScale⟩

/-- Model of `FGrabPointerData`: pointer reference (`none` = null), grab start time,
and the cached local grab transform. -/
structure FGrabPointerData where
  Pointer : Option ℕ
  StartTime : ℚ
  LocalGrabPoint : FTransform
deriving DecidableEq, Repr

/-- Model of `UGrabPointerDataFunctionLibrary::GetGrabLocation`. -/
def GetGrabLocation (Transform : FTransform) (PointerData : FGrabPointerData) : Vec3 :=
  Transform.TransformPosition PointerData.LocalGrabPoint.translation

/-- Model of `UGrabPointerDataFunctionLibrary::GetGrabRotation`. -/
def GetGrabRotation (Transform : FTransform) (PointerData : FGrabPointerData) : FRotator :=
  (Transform.TransformRotation PointerData.LocalGrabPoint.rotation).toRotator

/-- Model of `UGrabPointerDataFunctionLibrary::GetGrabTransform`. -/
def GetGrabTransform (Transform : FTransform) (PointerData : FGrabPointerData) : FTransform :=
  FTransform.mulT PointerData.LocalGrabPoint Transform

/-- Model of `UGrabPointerDataFunctionLibrary::GetTargetLocation`; `env` gives the
component transform of each live pointer id. -/
def GetTargetLocation (env : ℕ → FTransform) (PointerData : FGrabPointerData) : Vec3 :=
  match PointerData.Pointer with
  | some p => (env p).translation
  | none => Vec3.zero

/-- Model of `UGrabPointerDataFunctionLibrary::GetTargetRotation`. -/
def GetTargetRotation (env : ℕ → FTransform) (PointerData : FGrabPointerData) : FRotator :=
  match PointerData.Pointer with
  | some p => (env p).rotation.toRotator
  | none => FRotator.zeroRotator

/-- Model of `UGrabPointerDataFunctionLibrary::GetTargetTransform`. -/
def GetTargetTransform (env : ℕ → FTransform) (PointerData : FGrabPointerData) : FTransform :=
  match PointerData.Pointer with
  | some p => env p
  | none => FTransform.identityT

/-- Whether the `ensure(PointerData.Pointer != nullptr)` guard of the
target-query functions fires (logs an assertion failure). -/
def targetAssertTriggered (PointerData : FGrabPointerData) : Bool :=
  PointerData.Pointer.isNone

/-- Model of `UGrabPointerDataFunctionLibrary::GetLocationOffset`. -/
def GetLocationOffset (env : ℕ → FTransform) (Transform : FTransform)
    (PointerData : FGrabPointerData) : Vec3 :=
  (GetTargetLocation env PointerData).sub (GetGrabLocation Transform PointerData)

/-- Model of `UGrabPointerDataFunctionLibrary::GetRotationOffset`. -/
def GetRotationOffset (env : ℕ → FTransform) (Transform : FTransform)
    (PointerData : FGrabPointerData) : FRotator :=
  ((quatOfRotator (GetTargetRotation env PointerData)).mul
    (quatOfRotator (GetGrabRotation Transform PointerData).GetInverse)).toRotator

/-- Mutable state of a `UGrabbableComponent`: the pointer record array plus
the tick-control flags touched by `UpdateComponentTickEnabled`. -/
structure GrabbableState where
  GrabPointers : List FGrabPointerData
  bTickOnlyWhileGrabbed : Bool
  tickEnabled : Bool
deriving DecidableEq, Repr

/-- A fresh component: empty record array. -/
def initialGrabbable : GrabbableState := ⟨[], false, false⟩

/-- Number of records whose pointer is `p`. -/
def cntPointer (p : ℕ) (l : List FGrabPointerData) : ℕ :=
  l.countP (fun d => decide (d.Pointer = some p))

/-- Whether some record's pointer is `p`. -/
def hasPointer (l : List FGrabPointerData) (p : ℕ) : Bool :=
  l.any (fun d => decide (d.Pointer = some p))

/-- Model of `UGrabbableComponent::UpdateComponentTickEnabled`. -/
def UpdateComponentTickEnabled (s : GrabbableState) : GrabbableState :=
  if s.bTickOnlyWhileGrabbed then
    { s with tickEnabled := decide (s.GrabPointers.length > 0) }
  else s

/-- Model of `UGrabbableComponent::GraspStarted_Implementation` for pointer `p`:
builds a record from the world time and the pointer / component transforms
and appends it.  Hover locking and the `OnBeginGrab` broadcast act on host
objects outside this state. -/
def GraspStarted (s : GrabbableState) (p : ℕ) (time : ℚ)
    (pointerTransform componentTransform : FTransform) : GrabbableState :=
  let data : FGrabPointerData :=
    ⟨some p, time, FTransform.mulT pointerTransform componentTransform.inverse⟩
  UpdateComponentTickEnabled { s with GrabPointers := s.GrabPointers ++ [data] }

/-- Model of `UGrabbableComponent::GraspEnded_Implementation` for pointer `p`:
`RemoveAll` of the records whose pointer is `p`. -/
def GraspEnded (s : GrabbableState) (p : ℕ) : GrabbableState :=
  UpdateComponentTickEnabled
    { s with GrabPointers := s.GrabPointers.filter (fun d => !(decide (d.Pointer = some p))) }

/-- One grasp call: `started` carries the event-time world inputs
(world seconds, pointer transform, component transform). -/
inductive GraspEvent where
  | started (p : ℕ) (time : ℚ) (pointerTransform componentTransform : FTransform)
  | ended (p : ℕ)
deriving DecidableEq, Repr

/-- Apply one grasp call to the component state. -/
def stepGrasp (s : GrabbableState) : GraspEvent → GrabbableState
  | GraspEvent.started p t pt ct => GraspStarted s p t pt ct
  | GraspEvent.ended p => GraspEnded s p

/-- Run a sequence of grasp calls from a given state. -/
def runGraspFrom (s : GrabbableState) (evs : List GraspEvent) : GrabbableState :=
  evs.foldl stepGrasp s

/-- Number of `GraspStarted` calls for pointer `p` in the sequence. -/
def startCount (evs : List GraspEvent) (p : ℕ) : ℕ :=
  evs.countP (fun e =>
    match e with
    | GraspEvent.started q _ _ _ => decide (q = p)
    | GraspEvent.ended _ => false)

/-- Number of `GraspEnded` calls for pointer `p` in the sequence. -/
def endCount (evs : List GraspEvent) (p : ℕ) : ℕ :=
  evs.countP (fun e =>
    match e with
    | GraspEvent.started _ _ _ _ => false
    | GraspEvent.ended q => decide (q = p))

/-- Well-formed call sequences from a state: a pointer only starts a grasp
while it has no record, and only ends one while it has a record. -/
def wfGraspFrom : GrabbableState → List GraspEvent → Bool
  | _, [] => true
  | s, GraspEvent.started p t pt ct :: rest =>
      !(hasPointer s.GrabPointers p) &&
        wfGraspFrom (stepGrasp s (GraspEvent.started p t pt ct)) rest
  | s, GraspEvent.ended p :: rest =>
      hasPointer s.GrabPointers p && wfGraspFrom (stepGrasp s (GraspEvent.ended p)) rest

/-- Model of `UGrabbableComponent::GetGrabPointCentroid`. -/
def GetGrabPointCentroid (s : GrabbableState) (Transform : FTransform) : Vec3 :=
  let sum := s.GrabPointers.foldl (fun acc d => acc.add (GetGrabLocation Transform d)) Vec3.zero
  sum.divBy ((max s.GrabPointers.length 1 : ℕ) : ℚ)

/-- Model of `UGrabbableComponent::GetTargetCentroid` (records failing the `ensure`
guard contribute nothing). -/
def GetTargetCentroid (env : ℕ → FTransform) (s : GrabbableState) : Vec3 :=
  let sum := s.GrabPointers.foldl
    (fun acc d => if d.Pointer.isSome then acc.add (GetTargetLocation env d) else acc) Vec3.zero
  sum.divBy ((max s.GrabPointers.length 1 : ℕ) : ℚ)

/-- Model of `UGrabbableComponent::FindGrabPointerInternal`: first record whose
pointer equals the searched pointer, with its index; `none` plays the role
of the null `OutData` / `-1` index. -/
def FindGrabPointerInternal : List FGrabPointerData → Option ℕ → Option (FGrabPointerData × ℕ)
  | [], _ => none
  | d :: rest, q =>
      if d.Pointer = q then some (d, 0)
      else (FindGrabPointerInternal rest q).map (fun r => (r.1, r.2 + 1))

/-- Model of `UGrabbableComponent::FindGrabPointer`: returns
`(Success, PointerData, Index)`; on failure the caller's `PointerData`
(`pdIn`) is left as it was and the index is `-1`. -/
def FindGrabPointer (s : GrabbableState) (q : Option ℕ) (pdIn : FGrabPointerData) :
    Bool × FGrabPointerData × Int :=
  match FindGrabPointerInternal s.GrabPointers q with
  | some r => (true, r.1, (r.2 : Int))
  | none => (false, pdIn, -1)

/-- Model of `UGrabbableComponent::GetPrimaryGrabPointer`: `(Valid, PointerData)`,
the caller's `PointerData` (`pdIn`) untouched when fewer than one record. -/
def GetPrimaryGrabPointer (s : GrabbableState) (pdIn : FGrabPointerData) :
    Bool × FGrabPointerData :=
  match s.GrabPointers with
  | [] => (false, pdIn)
  | d :: _ => (true, d)

/-- Model of `UGrabbableComponent::GetSecondaryGrabPointer`: `(Valid, PointerData)`,
the caller's `PointerData` (`pdIn`) untouched when fewer than two records. -/
def GetSecondaryGrabPointer (s : GrabbableState) (pdIn : FGrabPointerData) :
    Bool × FGrabPointerData :=
  match s.GrabPointers with
  | _ :: d :: _ => (true, d)
  | _ => (false, pdIn)

/-- Host material objects: a base asset, or a dynamic instance created by
`CreateDynamicMaterialInstance` from a parent material under one of the
fixed instance names (indexed by the pulse material-parameter set). -/
inductive Material where
  | base (id : ℕ)
  | dyn (parent : Material) (instSlot : ℕ)
deriving DecidableEq, Repr

/-- Model of `EControllerHand` restricted to the two values the pulse logic reads. -/
inductive Hand where
  | left
  | right
deriving DecidableEq, Repr

/-- The fields of a `UUxtPointerComponent` read by `BeginPulse`. -/
structure UxtPointer where
  hand : Hand
  cursorLocation : Vec3
deriving DecidableEq, Repr

/-- The configuration the animation code reads: the relevant
`FUxtButtonBrush.Visuals` fields, the icon rest location
(`IconBrush.TextBrush.RelativeLocation`), and the actor's forward vector. -/
structure ButtonConfig where
  backPlateMaterial : Option Material
  backPlateMesh : Option ℕ
  frontPlateMaterial : Option Material
  frontPlateMesh : Option ℕ
  frontPlatePulseRightMaterial : Material
  frontPlatePulseLeftMaterial : Material
  pulseTime : ℚ
  pulseFadeTime : ℚ
  iconFocusSpeed : ℚ
  iconFocusCurve : Option (ℚ → ℚ)
  iconRestLocation : Vec3
  actorForward : Vec3

/-- Mutable state of an `AUxtPressableButtonActor`: animation timers,
pulse material bookkeeping, and the visual-component fields written by
`ConstructVisuals` / `AnimateFocus`. -/
structure ButtonState where
  PulseTimer : ℚ
  PulseFadeTimer : ℚ
  FocusTimer : ℚ
  MaterialIndex : ℕ
  PrePulseMaterial : Material
  PulseMaterialInstance : Option Material
  frontPlateMaterial0 : Material
  MillimeterSize : Vec3
  bIsPlated : Bool
  backPlateMaterial0 : Material
  backPlateMesh : ℕ
  backPlateScale : Vec3
  backPlateVisible : Bool
  frontPlateCenterLocation : Vec3
  frontPlateMesh : ℕ
  frontPlateScale : Vec3
  frontPlatePitched : Bool
  maxPushDistance : ℚ
  iconLocation : Vec3
  tickEnabled : Bool
deriving DecidableEq, Repr

/-- Modelled from the spec: `AUxtPressableButtonActor::GetSize`, defined in
the actor's header (not present under `src/`); the spec's size setters
relate the size to the stored millimeter size by a factor of 10, so the
getter returns the stored millimeter size scaled by `1/10`. -/
def GetSize (s : ButtonState) : Vec3 := s.MillimeterSize.scale (1 / 10)

/-- Modelled from the spec: `AUxtPressableButtonActor::IsPulsing`, declared
in the actor's header (not present under `src/`): true while a pulse is in
progress, i.e. rising or fading.  In the code's timer encoding the idle
state is `PulseTimer = -1` (any non-negative `PulseTimer` is a rising or
fading pulse), so `IsPulsing` holds iff `PulseTimer ≥ 0`. -/
def IsPulsing (s : ButtonState) : Bool := decide (0 ≤ s.PulseTimer)

/-- Model of `AUxtPressableButtonActor::ConstructVisuals` (the `SetVisuals`
component-path wiring is a host-object string outside the model). -/
def ConstructVisuals (c : ButtonConfig) (s : ButtonState) : ButtonState :=
  let size := GetSize s
  { s with
    backPlateMaterial0 := c.backPlateMaterial.getD s.backPlateMaterial0,
    backPlateMesh := c.backPlateMesh.getD s.backPlateMesh,
    backPlateScale := ⟨size.z, size.y, s.backPlateScale.z⟩,
    backPlateVisible := s.bIsPlated,
    frontPlateCenterLocation := ⟨size.x * (1 / 2), 0, 0⟩,
    frontPlateMaterial0 := c.frontPlateMaterial.getD s.frontPlateMaterial0,
    frontPlateMesh := c.frontPlateMesh.getD s.frontPlateMesh,
    frontPlateScale := size,
    frontPlatePitched := true,
    maxPushDistance := size.x }

/-- Model of `AUxtPressableButtonActor::BeginPulse`: `(return value, new state)`.
`CreateDynamicMaterialInstance` both creates the instance and assigns it to
material slot 0 of the front plate mesh; the `Blob_Position` parameter
write mutates the host material object only. -/
def BeginPulse (c : ButtonConfig) (s : ButtonState) (Pointer : Option UxtPointer) :
    Bool × ButtonState :=
  match Pointer with
  | none => (false, s)
  | some ptr =>
      if IsPulsing s then (false, s)
      else
        let idx : ℕ := if ptr.hand = Hand.left then 1 else 0
        let parent : Material :=
          if ptr.hand = Hand.left then c.frontPlatePulseLeftMaterial
          else c.frontPlatePulseRightMaterial
        let inst := Material.dyn parent idx
        (true,
         { s with
           PulseTimer := 0,
           PulseFadeTimer := 0,
           PrePulseMaterial := s.frontPlateMaterial0,
           MaterialIndex := idx,
           PulseMaterialInstance := some inst,
           frontPlateMaterial0 := inst,
           tickEnabled := true })

/-- Model of `AUxtPressableButtonActor::SetMillimeterSize`. -/
def SetMillimeterSize (c : ButtonConfig) (s : ButtonState) (Size : Vec3) : ButtonState :=
  if s.MillimeterSize ≠ Size then
    ConstructVisuals c { s with MillimeterSize := Size }
  else s

/-- Model of `AUxtPressableButtonActor::SetSize`: `NewSize = Size * 10`. -/
def SetSize (c : ButtonConfig) (s : ButtonState) (Size : Vec3) : ButtonState :=
  let NewSize := Size.scale 10
  if s.MillimeterSize ≠ NewSize then
    ConstructVisuals c { s with MillimeterSize := NewSize }
  else s

/-- Model of `AUxtPressableButtonActor::AnimatePulse`: `(animation complete, new
state)`.  The scalar material-parameter writes mutate host material
objects only; the timer arithmetic is the modelled state change. -/
def AnimatePulse (c : ButtonConfig) (s : ButtonState) (DeltaTime : ℚ) :
    Bool × ButtonState :=
  if 1 < s.PulseTimer then
    if 1 < s.PulseFadeTimer then
      (true,
       { s with
         frontPlateMaterial0 := s.PrePulseMaterial,
         PulseMaterialInstance := none,
         PulseTimer := -1,
         PulseFadeTimer := -1 })
    else
      (false,
       { s with
         PulseFadeTimer :=
           s.PulseFadeTimer +
             (1 / (if c.pulseFadeTime ≤ 0 then 1 else c.pulseFadeTime)) * DeltaTime })
  else if 0 ≤ s.PulseTimer then
    let newTimer :=
      s.PulseTimer + (1 / (if c.pulseTime ≤ 0 then 1 else c.pulseTime)) * DeltaTime
    if 1 < newTimer then
      let inst := Material.dyn s.PrePulseMaterial s.MaterialIndex
      (false,
       { s with
         PulseTimer := newTimer,
         PulseFadeTimer := 0,
         PulseMaterialInstance := some inst,
         frontPlateMaterial0 := inst })
    else
      (false, { s with PulseTimer := newTimer })
  else
    (true, s)

/-- Model of `FMath::Clamp(X, Min, Max)`. -/
def clampQ (x lo hi : ℚ) : ℚ := if x < lo then lo else if x < hi then x else hi

/-- Model of `FMath::Lerp(A, B, T)` on vectors: `A + (B - A) * T`. -/
def lerpVec (a b : Vec3) (t : ℚ) : Vec3 := a.add ((b.sub a).scale t)

/-- Model of `AUxtPressableButtonActor::AnimateFocus`: `(animation complete, new
state)`.  `focused` is `ButtonComponent->GetState() == EUxtButtonState::Focused`,
an input from the host button component. -/
def AnimateFocus (c : ButtonConfig) (focused : Bool) (DeltaTime : ℚ)
    (s : ButtonState) : Bool × ButtonState :=
  let FocusSpeed := c.iconFocusSpeed * (if focused then 1 else -1)
  let newTimer := clampQ (s.FocusTimer + DeltaTime * FocusSpeed) 0 1
  let CurveTime :=
    match c.iconFocusCurve with
    | some f => f newTimer
    | none => newTimer
  let target :=
    c.iconRestLocation.add (c.actorForward.scale ((GetSize s).x * (-(1 / 4))))
  (decide (newTimer = 0),
   { s with
     FocusTimer := newTimer,
     iconLocation := lerpVec c.iconRestLocation target CurveTime })

/-- Iterated per-frame `AnimateFocus` calls with fixed focus state and
delta time. -/
def AnimateFocusIter (c : ButtonConfig) (focused : Bool) (DeltaTime : ℚ) :
    ℕ → ButtonState → ButtonState
  | 0, s => s
  | n + 1, s => AnimateFocusIter c focused DeltaTime n (AnimateFocus c focused DeltaTime s).2

/-- A concrete configuration for evaluating the button model. -/
def sampleConfig : ButtonConfig :=
  ⟨none, none, none, none, Material.base 1, Material.base 2, 1, 1, 1, none,
   Vec3.zero, ⟨1, 0, 0⟩⟩

/-- A concrete idle button state (no pulse running, focus settled). -/
def sampleButton : ButtonState :=
  ⟨-1, -1, 0, 0, Material.base 0, none, Material.base 0, ⟨10, 10, 10⟩, false,
   Material.base 3, 0, ⟨1, 1, 1⟩, false, Vec3.zero, 0, ⟨1, 1, 1⟩, false, 1,
   Vec3.zero, false⟩

/-- A concrete grasp-call sequence that starts the same pointer twice. -/
def doubleStartSeq : List GraspEvent :=
  [GraspEvent.started 0 0 FTransform.identityT FTransform.identityT,
   GraspEvent.started 0 0 FTransform.identityT FTransform.identityT]

/-- A concrete well-formed grasp-call sequence: start 0, start 1, end 0. -/
def wfSampleSeq : List GraspEvent :=
  [GraspEvent.started 0 0 FTransform.identityT FTransform.identityT,
   GraspEvent.started 1 0 FTransform.identityT FTransform.identityT,
   GraspEvent.ended 0]

/-- C2: for every transform and every grab pointer record with a non-null
pointer, the location offset is the target location minus the grab
location, and the rotation offset is the target rotation composed, as
quaternions, with the inverse (conjugate) of the grab rotation. -/
theorem offset_functions_spec (env : ℕ → FTransform) (T : FTransform)
    (P : FGrabPointerData) (h : P.Pointer ≠ none) :
    GetLocationOffset env T P =
      (GetTargetLocation env P).sub (GetGrabLocation T P) ∧
    quatOfRotator (GetRotationOffset env T P) =
      (quatOfRotator (GetTargetRotation env P)).mul
        (quatOfRotator (GetGrabRotation T P)).conj :=
  ⟨rfl, rfl⟩

/-- Witness for C2 at a concrete record with a live pointer. -/
theorem offset_functions_spec_witness :
    (⟨some 0, 0, FTransform.identityT⟩ : FGrabPointerData).Pointer ≠ none ∧
    (GetLocationOffset (fun _ => FTransform.identityT) FTransform.identityT
        ⟨some 0, 0, FTransform.identityT⟩ =
      (GetTargetLocation (fun _ => FTransform.identityT)
          ⟨some 0, 0, FTransform.identityT⟩).sub
        (GetGrabLocation FTransform.identityT ⟨some 0, 0, FTransform.identityT⟩) ∧
     quatOfRotator (GetRotationOffset (fun _ => FTransform.identityT)
         FTransform.identityT ⟨some 0, 0, FTransform.identityT⟩) =
       (quatOfRotator (GetTargetRotation (fun _ => FTransform.identityT)
           ⟨some 0, 0, FTransform.identityT⟩)).mul
         (quatOfRotator (GetGrabRotation FTransform.identityT
             ⟨some 0, 0, FTransform.identityT⟩)).conj) :=
  ⟨by decide,
   offset_functions_spec (fun _ => FTransform.identityT) FTransform.identityT
     ⟨some 0, 0, FTransform.identityT⟩ (by decide)⟩

/-- C6 counterexample: on a record with a null (stale) pointer,
`GetTargetTransform` returns `FTransform::Identity`, whose scale component
is the unit vector, not zero — the returned default transform is not
zero-valued. -/
theorem getTargetTransform_not_zero_valued :
    GetTargetTransform (fun _ => FTransform.identityT)
        ⟨none, 0, FTransform.identityT⟩ = FTransform.identityT ∧
    FTransform.identityT.scale3D ≠ Vec3.zero := by
  exact ⟨rfl, by decide⟩

/-- C6 (amended): on a record with a null pointer each target query
triggers the `ensure` assertion and returns its default: `GetTargetLocation`
the zero vector, `GetTargetRotation` the zero rotator, and
`GetTargetTransform` the identity transform. -/
theorem target_queries_null_defaults (env : ℕ → FTransform)
    (pd : FGrabPointerData) (h : pd.Pointer = none) :
    GetTargetLocation env pd = Vec3.zero ∧
    GetTargetRotation env pd = FRotator.zeroRotator ∧
    GetTargetTransform env pd = FTransform.identityT ∧
    targetAssertTriggered pd = true := by
  obtain ⟨ptr, st, lg⟩ := pd
  cases h
  exact ⟨rfl, rfl, rfl, rfl⟩

/-- Witness for C6 at a concrete stale record. -/
theorem target_queries_null_defaults_witness :
    (⟨none, 0, FTransform.identityT⟩ : FGrabPointerData).Pointer = none ∧
    (GetTargetLocation (fun _ => FTransform.identityT)
        ⟨none, 0, FTransform.identityT⟩ = Vec3.zero ∧
     GetTargetRotation (fun _ => FTransform.identityT)
        ⟨none, 0, FTransform.identityT⟩ = FRotator.zeroRotator ∧
     GetTargetTransform (fun _ => FTransform.identityT)
        ⟨none, 0, FTransform.identityT⟩ = FTransform.identityT ∧
     targetAssertTriggered ⟨none, 0, FTransform.identityT⟩ = true) :=
  ⟨rfl,
   target_queries_null_defaults (fun _ => FTransform.identityT)
     ⟨none, 0, FTransform.identityT⟩ rfl⟩

/-- C7: with an empty grab pointer record list both centroids are the zero
vector; the division is by `max(count, 1) = 1`. -/
theorem centroid_empty_zero (env : ℕ → FTransform) (s : GrabbableState)
    (T : FTransform) (h : s.GrabPointers = []) :
    GetGrabPointCentroid s T = Vec3.zero ∧ GetTargetCentroid env s = Vec3.zero := by
  constructor <;>
    simp [GetGrabPointCentroid, GetTargetCentroid, h, Vec3.divBy, Vec3.zero]

/-- Witness for C7 on a freshly constructed component. -/
theorem centroid_empty_zero_witness :
    initialGrabbable.GrabPointers = [] ∧
    (GetGrabPointCentroid initialGrabbable FTransform.identityT = Vec3.zero ∧
     GetTargetCentroid (fun _ => FTransform.identityT) initialGrabbable = Vec3.zero) :=
  ⟨rfl,
   centroid_empty_zero (fun _ => FTransform.identityT) initialGrabbable
     FTransform.identityT rfl⟩

/-- C10: `SetSize S` acts exactly like `SetMillimeterSize (10 * S)`, and
either setter is a no-op — state unchanged, visuals not reconstructed —
when the resulting millimeter size equals the stored one. -/
theorem setSize_setMillimeterSize_spec (c : ButtonConfig) (s : ButtonState)
    (S : Vec3) :
    SetSize c s S = SetMillimeterSize c s (S.scale 10) ∧
    (s.MillimeterSize = S → SetMillimeterSize c s S = s) ∧
    (s.MillimeterSize = S.scale 10 → SetSize c s S = s) := by
  refine ⟨rfl, ?_, ?_⟩ <;> intro h <;> simp [SetMillimeterSize, SetSize, h]

/-- Witness for C10 at concrete sizes matching the stored 10mm cube. -/
theorem setSize_setMillimeterSize_spec_witness :
    sampleButton.MillimeterSize = ⟨10, 10, 10⟩ ∧
    SetMillimeterSize sampleConfig sampleButton ⟨10, 10, 10⟩ = sampleButton ∧
    sampleButton.MillimeterSize = Vec3.scale ⟨1, 1, 1⟩ 10 ∧
    SetSize sampleConfig sampleButton ⟨1, 1, 1⟩ = sampleButton :=
  ⟨by decide,
   (setSize_setMillimeterSize_spec sampleConfig sampleButton ⟨10, 10, 10⟩).2.1
     (by decide),
   by norm_num [sampleButton, Vec3.scale],
   (setSize_setMillimeterSize_spec sampleConfig sampleButton ⟨1, 1, 1⟩).2.2
     (by norm_num [sampleButton, Vec3.scale])⟩

/-- C3: `BeginPulse` returns false and leaves the state untouched while a
pulse is in progress (`IsPulsing`), likewise for a null pointer; with a
valid pointer and no pulse in progress it starts one, resetting both the
pulse timer and the pulse-fade timer to 0 and returning true. -/
theorem beginPulse_spec (c : ButtonConfig) (s : ButtonState)
    (ptr : Option UxtPointer) :
    (IsPulsing s = true → BeginPulse c s ptr = (false, s)) ∧
    (ptr = none → BeginPulse c s ptr = (false, s)) ∧
    (∀ p, ptr = some p → IsPulsing s = false →
      (BeginPulse c s ptr).1 = true ∧
      (BeginPulse c s ptr).2.PulseTimer = 0 ∧
      (BeginPulse c s ptr).2.PulseFadeTimer = 0) := by
  refine ⟨?_, ?_, ?_⟩
  · intro h
    cases ptr with
    | none => rfl
    | some p => simp [BeginPulse, h]
  · intro h
    cases h
    rfl
  · intro p hp hnp
    cases hp
    simp [BeginPulse, hnp]

/-- Witness for C3: a pulsing state rejects a new pulse; an idle state
accepts one and resets both timers. -/
theorem beginPulse_spec_witness :
    IsPulsing { sampleButton with PulseTimer := 0 } = true ∧
    BeginPulse sampleConfig { sampleButton with PulseTimer := 0 }
        (some ⟨Hand.right, Vec3.zero⟩) =
      (false, { sampleButton with PulseTimer := 0 }) ∧
    IsPulsing sampleButton = false ∧
    ((BeginPulse sampleConfig sampleButton (some ⟨Hand.right, Vec3.zero⟩)).1 = true ∧
     (BeginPulse sampleConfig sampleButton
         (some ⟨Hand.right, Vec3.zero⟩)).2.PulseTimer = 0 ∧
     (BeginPulse sampleConfig sampleButton
         (some ⟨Hand.right, Vec3.zero⟩)).2.PulseFadeTimer = 0) :=
  ⟨by decide,
   (beginPulse_spec sampleConfig { sampleButton with PulseTimer := 0 }
      (some ⟨Hand.right, Vec3.zero⟩)).1 (by decide),
   by decide,
   (beginPulse_spec sampleConfig sampleButton
      (some ⟨Hand.right, Vec3.zero⟩)).2.2 ⟨Hand.right, Vec3.zero⟩ rfl (by decide)⟩

/-- C8: the per-frame pulse update advances the pulse timer (while rising)
and the pulse-fade timer (while fading) by `DeltaTime / D`, where `D` is
the configured duration, defaulting to 1 second whenever the configured
duration is zero or negative; the effective divisor is always positive. -/
theorem animatePulse_rates_spec (c : ButtonConfig) (s : ButtonState) (dt : ℚ) :
    (0 < (if c.pulseTime ≤ 0 then (1 : ℚ) else c.pulseTime)) ∧
    (c.pulseTime ≤ 0 → (if c.pulseTime ≤ 0 then (1 : ℚ) else c.pulseTime) = 1) ∧
    (0 < c.pulseTime →
      (if c.pulseTime ≤ 0 then (1 : ℚ) else c.pulseTime) = c.pulseTime) ∧
    (0 < (if c.pulseFadeTime ≤ 0 then (1 : ℚ) else c.pulseFadeTime)) ∧
    (c.pulseFadeTime ≤ 0 →
      (if c.pulseFadeTime ≤ 0 then (1 : ℚ) else c.pulseFadeTime) = 1) ∧
    (0 < c.pulseFadeTime →
      (if c.pulseFadeTime ≤ 0 then (1 : ℚ) else c.pulseFadeTime) = c.pulseFadeTime) ∧
    (0 ≤ s.PulseTimer → ¬ 1 < s.PulseTimer →
      (AnimatePulse c s dt).2.PulseTimer =
        s.PulseTimer + dt / (if c.pulseTime ≤ 0 then 1 else c.pulseTime)) ∧
    (1 < s.PulseTimer → ¬ 1 < s.PulseFadeTimer →
      (AnimatePulse c s dt).2.PulseFadeTimer =
        s.PulseFadeTimer + dt / (if c.pulseFadeTime ≤ 0 then 1 else c.pulseFadeTime)) := by
  refine ⟨?_, ?_, ?_, ?_, ?_, ?_, ?_, ?_⟩
  · split_ifs with h
    · norm_num
    · linarith [not_le.mp h]
  · intro h; rw [if_pos h]
  · intro h; rw [if_neg (not_le.mpr h)]
  · split_ifs with h
    · norm_num
    · linarith [not_le.mp h]
  · intro h; rw [if_pos h]
  · intro h; rw [if_neg (not_le.mpr h)]
  · intro h0 h1
    have hpt : (AnimatePulse c s dt).2.PulseTimer =
        s.PulseTimer + (1 / (if c.pulseTime ≤ 0 then (1 : ℚ) else c.pulseTime)) * dt := by
      by_cases hc : 1 < s.PulseTimer +
          (1 / (if c.pulseTime ≤ 0 then (1 : ℚ) else c.pulseTime)) * dt
      · unfold AnimatePulse
        rw [if_neg h1, if_pos h0]
        simp only [if_pos hc]
      · unfold AnimatePulse
        rw [if_neg h1, if_pos h0]
        simp only [if_neg hc]
    rw [hpt]; ring
  · intro h1 h2
    have hpt : (AnimatePulse c s dt).2.PulseFadeTimer =
        s.PulseFadeTimer +
          (1 / (if c.pulseFadeTime ≤ 0 then (1 : ℚ) else c.pulseFadeTime)) * dt := by
      unfold AnimatePulse
      rw [if_pos h1, if_neg h2]
    rw [hpt]; ring

/-- Witness for C8 at a rising state and at a fading state. -/
theorem animatePulse_rates_spec_witness :
    (0 ≤ ({ sampleButton with PulseTimer := 1/2 } : ButtonState).PulseTimer ∧
     ¬ 1 < ({ sampleButton with PulseTimer := 1/2 } : ButtonState).PulseTimer ∧
     (AnimatePulse sampleConfig { sampleButton with PulseTimer := 1/2 } 1).2.PulseTimer =
       ({ sampleButton with PulseTimer := 1/2 } : ButtonState).PulseTimer +
         1 / (if sampleConfig.pulseTime ≤ 0 then 1 else sampleConfig.pulseTime)) ∧
    (1 < ({ sampleButton with PulseTimer := 3/2, PulseFadeTimer := 1/2 } : ButtonState).PulseTimer ∧
     ¬ 1 < ({ sampleButton with PulseTimer := 3/2, PulseFadeTimer := 1/2 } : ButtonState).PulseFadeTimer ∧
     (AnimatePulse sampleConfig
         { sampleButton with PulseTimer := 3/2, PulseFadeTimer := 1/2 } 1).2.PulseFadeTimer =
       ({ sampleButton with PulseTimer := 3/2, PulseFadeTimer := 1/2 } : ButtonState).PulseFadeTimer +
         1 / (if sampleConfig.pulseFadeTime ≤ 0 then 1 else sampleConfig.pulseFadeTime)) :=
  ⟨⟨by norm_num,
    by norm_num,
    (animatePulse_rates_spec sampleConfig { sampleButton with PulseTimer := 1/2 } 1).2.2.2.2.2.2.1
      (by norm_num) (by norm_num)⟩,
   ⟨by norm_num,
    by norm_num,
    (animatePulse_rates_spec sampleConfig
        { sampleButton with PulseTimer := 3/2, PulseFadeTimer := 1/2 } 1).2.2.2.2.2.2.2
      (by norm_num) (by norm_num)⟩⟩

/-- The clamp to `[0,1]` keeps its value in `[0,1]`. -/
theorem clampQ01_mem (v : ℚ) : 0 ≤ clampQ v 0 1 ∧ clampQ v 0 1 ≤ 1 := by
  unfold clampQ
  split_ifs <;> constructor <;> linarith

/-- Below the upper bound, the clamp to `[0,1]` is `max 0`. -/
theorem clampQ01_of_le_one (v : ℚ) (h : v ≤ 1) : clampQ v 0 1 = max 0 v := by
  unfold clampQ
  rcases le_or_lt 0 v with h0 | h0
  · rw [max_eq_right h0]
    split_ifs <;> linarith
  · rw [max_eq_left h0.le]
    split_ifs <;> linarith

/-- The focus timer after one `AnimateFocus` step. -/
theorem animateFocus_timer (c : ButtonConfig) (focused : Bool) (dt : ℚ)
    (s : ButtonState) :
    (AnimateFocus c focused dt s).2.FocusTimer =
      clampQ (s.FocusTimer + dt * (c.iconFocusSpeed * (if focused then 1 else -1))) 0 1 :=
  rfl

/-- Model of `AnimateFocus` returns whether the new focus timer is exactly 0. -/
theorem animateFocus_ret (c : ButtonConfig) (focused : Bool) (dt : ℚ)
    (s : ButtonState) :
    (AnimateFocus c focused dt s).1 = decide ((AnimateFocus c focused dt s).2.FocusTimer = 0) :=
  rfl

/-- One unfocused step with non-negative delta time and speed lowers a
focus timer in `[0,1]` to `max 0 (timer - dt * speed)`. -/
theorem animateFocus_unfocused_step (c : ButtonConfig) (dt : ℚ) (s : ButtonState)
    (hdt : 0 ≤ dt) (hsp : 0 ≤ c.iconFocusSpeed)
    (h0 : 0 ≤ s.FocusTimer) (h1 : s.FocusTimer ≤ 1) :
    (AnimateFocus c false dt s).2.FocusTimer =
      max 0 (s.FocusTimer - dt * c.iconFocusSpeed) := by
  rw [animateFocus_timer]
  have harg : s.FocusTimer + dt * (c.iconFocusSpeed * (if false then (1 : ℚ) else -1)) =
      s.FocusTimer - dt * c.iconFocusSpeed := by
    norm_num
    ring
  rw [harg, clampQ01_of_le_one]
  have := mul_nonneg hdt hsp
  linarith

/-- Iterated unfocused steps: the focus timer follows
`max 0 (timer - n * dt * speed)`. -/
theorem animateFocusIter_unfocused (c : ButtonConfig) (dt : ℚ)
    (hdt : 0 ≤ dt) (hsp : 0 ≤ c.iconFocusSpeed) :
    ∀ (n : ℕ) (s : ButtonState), 0 ≤ s.FocusTimer → s.FocusTimer ≤ 1 →
      (AnimateFocusIter c false dt n s).FocusTimer =
        max 0 (s.FocusTimer - n * (dt * c.iconFocusSpeed)) := by
  intro n
  induction n with
  | zero =>
    intro s h0 h1
    rw [AnimateFocusIter]
    norm_num
    exact h0
  | succ n ih =>
    intro s h0 h1
    have hd : 0 ≤ dt * c.iconFocusSpeed := mul_nonneg hdt hsp
    have hstep : (AnimateFocus c false dt s).2.FocusTimer =
        max 0 (s.FocusTimer - dt * c.iconFocusSpeed) :=
      animateFocus_unfocused_step c dt s hdt hsp h0 h1
    have hnew0 : 0 ≤ (AnimateFocus c false dt s).2.FocusTimer := by
      rw [hstep]; exact le_max_left _ _
    have hnew1 : (AnimateFocus c false dt s).2.FocusTimer ≤ 1 := by
      rw [hstep]
      apply max_le (by norm_num)
      linarith
    rw [AnimateFocusIter, ih _ hnew0 hnew1, hstep]
    have hnd : 0 ≤ (n : ℚ) * (dt * c.iconFocusSpeed) :=
      mul_nonneg (by positivity) hd
    rcases le_or_lt (s.FocusTimer - dt * c.iconFocusSpeed) 0 with hc | hc
    · rw [max_eq_left hc, max_eq_left, max_eq_left]
      · push_cast
        nlinarith
      · linarith
    · rw [max_eq_right hc.le]
      have harg : s.FocusTimer - dt * c.iconFocusSpeed - n * (dt * c.iconFocusSpeed) =
          s.FocusTimer - ((n : ℚ) + 1) * (dt * c.iconFocusSpeed) := by ring
      rw [harg]
      push_cast
      ring_nf

/-- C4: after every `AnimateFocus` step the focus timer lies in `[0,1]`
and the step reports the animation complete exactly when the new timer is
0; while unfocused, with non-negative delta time and a non-negative
configured focus speed, a timer in `[0,1]` never increases, follows
`max 0 (timer - dt * speed)`, and is exactly 0 once the accumulated
unfocused time `n * dt` covers `timer / speed`. -/
theorem animateFocus_spec (c : ButtonConfig) (focused : Bool) (dt : ℚ)
    (s : ButtonState) :
    (0 ≤ (AnimateFocus c focused dt s).2.FocusTimer ∧
     (AnimateFocus c focused dt s).2.FocusTimer ≤ 1) ∧
    ((AnimateFocus c focused dt s).1 = true ↔
      (AnimateFocus c focused dt s).2.FocusTimer = 0) ∧
    (focused = false → 0 ≤ dt → 0 ≤ c.iconFocusSpeed →
     0 ≤ s.FocusTimer → s.FocusTimer ≤ 1 →
      (AnimateFocus c focused dt s).2.FocusTimer =
        max 0 (s.FocusTimer - dt * c.iconFocusSpeed) ∧
      (AnimateFocus c focused dt s).2.FocusTimer ≤ s.FocusTimer) ∧
    (focused = false → 0 ≤ dt → 0 ≤ c.iconFocusSpeed →
     0 ≤ s.FocusTimer → s.FocusTimer ≤ 1 →
      ∀ n : ℕ, s.FocusTimer ≤ n * (dt * c.iconFocusSpeed) →
        (AnimateFocusIter c focused dt n s).FocusTimer = 0) := by
  refine ⟨?_, ?_, ?_, ?_⟩
  · rw [animateFocus_timer]
    exact clampQ01_mem _
  · rw [animateFocus_ret]
    simp
  · intro hf hdt hsp h0 h1
    cases hf
    have hstep := animateFocus_unfocused_step c dt s hdt hsp h0 h1
    refine ⟨hstep, ?_⟩
    rw [hstep]
    apply max_le h0
    linarith [mul_nonneg hdt hsp]
  · intro hf hdt hsp h0 h1 n hn
    cases hf
    rw [animateFocusIter_unfocused c dt hdt hsp n s h0 h1]
    rw [max_eq_left]
    linarith

/-- Witness for C4: a half-advanced focus timer, unfocused, with unit
delta time and speed, drops to 0 in one frame and the step reports
completion. -/
theorem animateFocus_spec_witness :
    (0 ≤ (AnimateFocus sampleConfig false 1
        { sampleButton with FocusTimer := 1/2 }).2.FocusTimer ∧
     (AnimateFocus sampleConfig false 1
        { sampleButton with FocusTimer := 1/2 }).2.FocusTimer ≤ 1) ∧
    ((AnimateFocus sampleConfig false 1
        { sampleButton with FocusTimer := 1/2 }).1 = true ↔
      (AnimateFocus sampleConfig false 1
        { sampleButton with FocusTimer := 1/2 }).2.FocusTimer = 0) ∧
    ((AnimateFocus sampleConfig false 1
        { sampleButton with FocusTimer := 1/2 }).2.FocusTimer =
       max 0 (({ sampleButton with FocusTimer := 1/2 } : ButtonState).FocusTimer -
         1 * sampleConfig.iconFocusSpeed) ∧
     (AnimateFocus sampleConfig false 1
        { sampleButton with FocusTimer := 1/2 }).2.FocusTimer ≤
       ({ sampleButton with FocusTimer := 1/2 } : ButtonState).FocusTimer) ∧
    (AnimateFocusIter sampleConfig false 1 1
        { sampleButton with FocusTimer := 1/2 }).FocusTimer = 0 :=
  ⟨(animateFocus_spec sampleConfig false 1 { sampleButton with FocusTimer := 1/2 }).1,
   (animateFocus_spec sampleConfig false 1 { sampleButton with FocusTimer := 1/2 }).2.1,
   (animateFocus_spec sampleConfig false 1
      { sampleButton with FocusTimer := 1/2 }).2.2.1 rfl (by norm_num)
     (by norm_num [sampleConfig]) (by norm_num [sampleButton]) (by norm_num [sampleButton]),
   (animateFocus_spec sampleConfig false 1
      { sampleButton with FocusTimer := 1/2 }).2.2.2 rfl (by norm_num)
     (by norm_num [sampleConfig]) (by norm_num [sampleButton]) (by norm_num [sampleButton]) 1
     (by norm_num [sampleButton, sampleConfig])⟩

/-- The search loop returns `none` when no record matches. -/
theorem findInternal_none (q : Option ℕ) :
    ∀ (l : List FGrabPointerData), (∀ d ∈ l, d.Pointer ≠ q) →
      FindGrabPointerInternal l q = none := by
  intro l
  induction l with
  | nil => intro _; rfl
  | cons d rest ih =>
    intro h
    rw [FindGrabPointerInternal, if_neg (h d (by simp)), ih (fun a ha => h a (by simp [ha]))]
    rfl

/-- The search loop returns the first matching record with its index. -/
theorem findInternal_first (q : Option ℕ) :
    ∀ (l : List FGrabPointerData) (i : ℕ) (hi : i < l.length),
      (l.get ⟨i, hi⟩).Pointer = q →
      (∀ (j : ℕ) (hj : j < i), (l.get ⟨j, hj.trans hi⟩).Pointer ≠ q) →
      FindGrabPointerInternal l q = some (l.get ⟨i, hi⟩, i) := by
  intro l
  induction l with
  | nil => intro i hi; exact absurd hi (by simp)
  | cons d rest ih =>
    intro i hi hmatch hmin
    cases i with
    | zero =>
      rw [FindGrabPointerInternal, if_pos (show d.Pointer = q from hmatch)]
      rfl
    | succ n =>
      have hd : d.Pointer ≠ q := hmin 0 (Nat.succ_pos n)
      have hrest := ih n (Nat.lt_of_succ_lt_succ hi) hmatch
        (fun j hj => hmin (j + 1) (Nat.succ_lt_succ hj))
      rw [FindGrabPointerInternal, if_neg hd, hrest]
      rfl

/-- C9: `FindGrabPointer` on an absent pointer reports failure with index
-1 and hands back the caller's record unmodified; on a present pointer it
reports success with the first matching record and its index. -/
theorem findGrabPointer_spec (s : GrabbableState) (q : Option ℕ)
    (pdIn : FGrabPointerData) :
    ((∀ d ∈ s.GrabPointers, d.Pointer ≠ q) →
      FindGrabPointer s q pdIn = (false, pdIn, -1)) ∧
    (∀ (i : ℕ) (hi : i < s.GrabPointers.length),
      (s.GrabPointers.get ⟨i, hi⟩).Pointer = q →
      (∀ (j : ℕ) (hj : j < i), (s.GrabPointers.get ⟨j, hj.trans hi⟩).Pointer ≠ q) →
      FindGrabPointer s q pdIn = (true, s.GrabPointers.get ⟨i, hi⟩, (i : Int))) := by
  constructor
  · intro h
    unfold FindGrabPointer
    rw [findInternal_none q s.GrabPointers h]
  · intro i hi hmatch hmin
    unfold FindGrabPointer
    rw [findInternal_first q s.GrabPointers i hi hmatch hmin]

/-- Witness for C9: a one-record component misses pointer 7 and finds
pointer 5 at index 0. -/
theorem findGrabPointer_spec_witness :
    FindGrabPointer ⟨[⟨some 5, 0, FTransform.identityT⟩], false, false⟩ (some 7)
        ⟨none, 0, FTransform.identityT⟩ =
      (false, ⟨none, 0, FTransform.identityT⟩, -1) ∧
    FindGrabPointer ⟨[⟨some 5, 0, FTransform.identityT⟩], false, false⟩ (some 5)
        ⟨none, 0, FTransform.identityT⟩ =
      (true, ⟨some 5, 0, FTransform.identityT⟩, ((0 : ℕ) : Int)) :=
  ⟨(findGrabPointer_spec ⟨[⟨some 5, 0, FTransform.identityT⟩], false, false⟩ (some 7)
      ⟨none, 0, FTransform.identityT⟩).1 (by decide),
   (findGrabPointer_spec ⟨[⟨some 5, 0, FTransform.identityT⟩], false, false⟩ (some 5)
      ⟨none, 0, FTransform.identityT⟩).2 0 (by decide) rfl
     (fun j hj => absurd hj (Nat.not_lt_zero j))⟩

/-- Tick re-evaluation never touches the record list. -/
theorem updateTick_grabPointers (s : GrabbableState) :
    (UpdateComponentTickEnabled s).GrabPointers = s.GrabPointers := by
  unfold UpdateComponentTickEnabled
  split <;> rfl

/-- Model of `GraspStarted` appends one record built from the call inputs. -/
theorem graspStarted_grabPointers (s : GrabbableState) (p : ℕ) (t : ℚ)
    (pt ct : FTransform) :
    (GraspStarted s p t pt ct).GrabPointers =
      s.GrabPointers ++ [⟨some p, t, FTransform.mulT pt ct.inverse⟩] := by
  unfold GraspStarted
  rw [updateTick_grabPointers]

/-- Model of `GraspEnded` removes every record of the released pointer. -/
theorem graspEnded_grabPointers (s : GrabbableState) (p : ℕ) :
    (GraspEnded s p).GrabPointers =
      s.GrabPointers.filter (fun d => !(decide (d.Pointer = some p))) := by
  unfold GraspEnded
  rw [updateTick_grabPointers]

/-- C5: with fewer than one (resp. two) records the primary (resp.
secondary) accessor reports invalid and returns the caller's record
untouched; after grasping pointer `A` then pointer `B` from a fresh
component the primary accessor returns `A`'s record and the secondary
`B`'s, and after releasing `A` the primary accessor returns `B`'s
record. -/
theorem primary_secondary_spec (A B : ℕ) (tA tB : ℚ) (pA cA pB cB : FTransform)
    (pdIn : FGrabPointerData) (hAB : A ≠ B) :
    (∀ (s : GrabbableState) (pd : FGrabPointerData), s.GrabPointers.length < 1 →
      GetPrimaryGrabPointer s pd = (false, pd)) ∧
    (∀ (s : GrabbableState) (pd : FGrabPointerData), s.GrabPointers.length < 2 →
      GetSecondaryGrabPointer s pd = (false, pd)) ∧
    GetPrimaryGrabPointer
        (GraspStarted (GraspStarted initialGrabbable A tA pA cA) B tB pB cB) pdIn =
      (true, ⟨some A, tA, FTransform.mulT pA cA.inverse⟩) ∧
    GetSecondaryGrabPointer
        (GraspStarted (GraspStarted initialGrabbable A tA pA cA) B tB pB cB) pdIn =
      (true, ⟨some B, tB, FTransform.mulT pB cB.inverse⟩) ∧
    GetPrimaryGrabPointer
        (GraspEnded (GraspStarted (GraspStarted initialGrabbable A tA pA cA) B tB pB cB) A)
        pdIn =
      (true, ⟨some B, tB, FTransform.mulT pB cB.inverse⟩) := by
  have h2 : (GraspStarted (GraspStarted initialGrabbable A tA pA cA) B tB pB cB).GrabPointers =
      [⟨some A, tA, FTransform.mulT pA cA.inverse⟩,
       ⟨some B, tB, FTransform.mulT pB cB.inverse⟩] := by
    rw [graspStarted_grabPointers, graspStarted_grabPointers]
    rfl
  have h3 : (GraspEnded (GraspStarted (GraspStarted initialGrabbable A tA pA cA) B tB pB cB)
        A).GrabPointers = [⟨some B, tB, FTransform.mulT pB cB.inverse⟩] := by
    rw [graspEnded_grabPointers, h2]
    have hBA : ¬ ((some B : Option ℕ) = some A) := by
      simp
      exact Ne.symm hAB
    simp [List.filter_cons, hBA]
  refine ⟨?_, ?_, ?_, ?_, ?_⟩
  · intro s pd h
    obtain ⟨l, b1, b2⟩ := s
    cases l with
    | nil => rfl
    | cons d rest => simp at h
  · intro s pd h
    obtain ⟨l, b1, b2⟩ := s
    cases l with
    | nil => rfl
    | cons d rest =>
      cases rest with
      | nil => rfl
      | cons d2 r2 => exact absurd h (by simp)
  · simp only [GetPrimaryGrabPointer, h2]
  · simp only [GetSecondaryGrabPointer, h2]
  · simp only [GetPrimaryGrabPointer, h3]

/-- Witness for C5 at pointers 0 and 1 with identity transforms. -/
theorem primary_secondary_spec_witness :
    GetPrimaryGrabPointer initialGrabbable ⟨none, 0, FTransform.identityT⟩ =
      (false, ⟨none, 0, FTransform.identityT⟩) ∧
    GetSecondaryGrabPointer initialGrabbable ⟨none, 0, FTransform.identityT⟩ =
      (false, ⟨none, 0, FTransform.identityT⟩) ∧
    GetPrimaryGrabPointer
        (GraspStarted (GraspStarted initialGrabbable 0 0 FTransform.identityT
            FTransform.identityT) 1 0 FTransform.identityT FTransform.identityT)
        ⟨none, 0, FTransform.identityT⟩ =
      (true, ⟨some 0, 0, FTransform.mulT FTransform.identityT FTransform.identityT.inverse⟩) ∧
    GetSecondaryGrabPointer
        (GraspStarted (GraspStarted initialGrabbable 0 0 FTransform.identityT
            FTransform.identityT) 1 0 FTransform.identityT FTransform.identityT)
        ⟨none, 0, FTransform.identityT⟩ =
      (true, ⟨some 1, 0, FTransform.mulT FTransform.identityT FTransform.identityT.inverse⟩) ∧
    GetPrimaryGrabPointer
        (GraspEnded (GraspStarted (GraspStarted initialGrabbable 0 0 FTransform.identityT
            FTransform.identityT) 1 0 FTransform.identityT FTransform.identityT) 0)
        ⟨none, 0, FTransform.identityT⟩ =
      (true, ⟨some 1, 0, FTransform.mulT FTransform.identityT FTransform.identityT.inverse⟩) :=
  ⟨(primary_secondary_spec 0 1 0 0 FTransform.identityT FTransform.identityT
      FTransform.identityT FTransform.identityT ⟨none, 0, FTransform.identityT⟩
      (by decide)).1 initialGrabbable ⟨none, 0, FTransform.identityT⟩ (by decide),
   (primary_secondary_spec 0 1 0 0 FTransform.identityT FTransform.identityT
      FTransform.identityT FTransform.identityT ⟨none, 0, FTransform.identityT⟩
      (by decide)).2.1 initialGrabbable ⟨none, 0, FTransform.identityT⟩ (by decide),
   (primary_secondary_spec 0 1 0 0 FTransform.identityT FTransform.identityT
      FTransform.identityT FTransform.identityT ⟨none, 0, FTransform.identityT⟩
      (by decide)).2.2.1,
   (primary_secondary_spec 0 1 0 0 FTransform.identityT FTransform.identityT
      FTransform.identityT FTransform.identityT ⟨none, 0, FTransform.identityT⟩
      (by decide)).2.2.2.1,
   (primary_secondary_spec 0 1 0 0 FTransform.identityT FTransform.identityT
      FTransform.identityT FTransform.identityT ⟨none, 0, FTransform.identityT⟩
      (by decide)).2.2.2.2⟩

/-- Record counts add over list append. -/
theorem cntPointer_append (p : ℕ) (l1 l2 : List FGrabPointerData) :
    cntPointer p (l1 ++ l2) = cntPointer p l1 + cntPointer p l2 := by
  simp [cntPointer, List.countP_append]

/-- Record count of a single record. -/
theorem cntPointer_single (p : ℕ) (d : FGrabPointerData) :
    cntPointer p [d] = if d.Pointer = some p then 1 else 0 := by
  simp [cntPointer, List.countP_cons]

/-- Removing a pointer's records zeroes its count. -/
theorem cntPointer_filter_self (p : ℕ) (l : List FGrabPointerData) :
    cntPointer p (l.filter (fun d => !(decide (d.Pointer = some p)))) = 0 := by
  rw [cntPointer, List.countP_eq_zero]
  intro a ha
  have h2 := (List.mem_filter.mp ha).2
  simp at h2 ⊢
  exact h2

/-- Removing another pointer's records keeps the count. -/
theorem cntPointer_filter_ne (p q : ℕ) (hpq : p ≠ q) (l : List FGrabPointerData) :
    cntPointer p (l.filter (fun d => !(decide (d.Pointer = some q)))) =
      cntPointer p l := by
  induction l with
  | nil => rfl
  | cons d rest ih =>
    by_cases h : d.Pointer = some q
    · have hqp : ¬ (q = p) := fun hc => hpq hc.symm
      simp only [cntPointer] at ih ⊢
      simp [List.filter_cons, List.countP_cons, h, hqp, ih]
    · simp only [cntPointer] at ih ⊢
      simp [List.filter_cons, List.countP_cons, h, ih]

/-- A pointer has a record iff its record count is positive. -/
theorem hasPointer_iff (l : List FGrabPointerData) (p : ℕ) :
    hasPointer l p = true ↔ 0 < cntPointer p l := by
  simp [hasPointer, cntPointer, List.any_eq_true, List.countP_pos]

/-- Invariant carried along a well-formed call sequence: counting from any
state whose per-pointer record counts are at most one, each pointer's
final record count balances the start/end call counts and stays at most
one. -/
theorem graspInvariantAux :
    ∀ (evs : List GraspEvent) (s : GrabbableState),
      wfGraspFrom s evs = true →
      (∀ q, cntPointer q s.GrabPointers ≤ 1) →
      ∀ p, cntPointer p (runGraspFrom s evs).GrabPointers + endCount evs p =
              cntPointer p s.GrabPointers + startCount evs p ∧
            cntPointer p (runGraspFrom s evs).GrabPointers ≤ 1 := by
  intro evs
  induction evs with
  | nil =>
    intro s _ hcnt p
    exact ⟨rfl, hcnt p⟩
  | cons e rest ih =>
    intro s hwf hcnt p
    cases e with
    | started pq t pt ct =>
      rw [wfGraspFrom, Bool.and_eq_true] at hwf
      obtain ⟨hnew, hwrest⟩ := hwf
      simp only [Bool.not_eq_true'] at hnew
      have hcnt0 : cntPointer pq s.GrabPointers = 0 := by
        by_contra hc
        have hpos : 0 < cntPointer pq s.GrabPointers := Nat.pos_of_ne_zero hc
        rw [← hasPointer_iff] at hpos
        rw [hnew] at hpos
        exact Bool.false_ne_true hpos
      set s' := stepGrasp s (GraspEvent.started pq t pt ct) with hs'
      have hgp : s'.GrabPointers =
          s.GrabPointers ++ [⟨some pq, t, FTransform.mulT pt ct.inverse⟩] :=
        graspStarted_grabPointers s pq t pt ct
      have hcnt' : ∀ q, cntPointer q s'.GrabPointers ≤ 1 := by
        intro q
        rw [hgp, cntPointer_append, cntPointer_single]
        by_cases hq : pq = q
        · subst hq
          rw [hcnt0]
          simp
        · rw [if_neg (by simpa using hq)]
          simpa using hcnt q
      obtain ⟨heq, hle⟩ := ih s' hwrest hcnt' p
      have hstart : startCount (GraspEvent.started pq t pt ct :: rest) p =
          startCount rest p + (if pq = p then 1 else 0) := by
        simp [startCount, List.countP_cons]
      have hend : endCount (GraspEvent.started pq t pt ct :: rest) p =
          endCount rest p := by
        simp [endCount, List.countP_cons]
      have hcntS : cntPointer p s'.GrabPointers =
          cntPointer p s.GrabPointers + (if pq = p then 1 else 0) := by
        rw [hgp, cntPointer_append, cntPointer_single]
        simp
      have hrun : runGraspFrom s (GraspEvent.started pq t pt ct :: rest) =
          runGraspFrom s' rest := rfl
      rw [hrun, hstart, hend]
      rw [hcntS] at heq
      exact ⟨by omega, hle⟩
    | ended pq =>
      rw [wfGraspFrom, Bool.and_eq_true] at hwf
      obtain ⟨hhas, hwrest⟩ := hwf
      have hpos : 0 < cntPointer pq s.GrabPointers := (hasPointer_iff _ _).mp hhas
      have hone : cntPointer pq s.GrabPointers = 1 :=
        Nat.le_antisymm (hcnt pq) hpos
      set s' := stepGrasp s (GraspEvent.ended pq) with hs'
      have hgp : s'.GrabPointers =
          s.GrabPointers.filter (fun d => !(decide (d.Pointer = some pq))) :=
        graspEnded_grabPointers s pq
      have hcnt' : ∀ q, cntPointer q s'.GrabPointers ≤ 1 := by
        intro q
        rw [hgp]
        by_cases hq : q = pq
        · subst hq
          rw [cntPointer_filter_self]
          exact Nat.zero_le 1
        · rw [cntPointer_filter_ne q pq hq]
          exact hcnt q
      obtain ⟨heq, hle⟩ := ih s' hwrest hcnt' p
      have hstart : startCount (GraspEvent.ended pq :: rest) p =
          startCount rest p := by
        simp [startCount, List.countP_cons]
      have hend : endCount (GraspEvent.ended pq :: rest) p =
          endCount rest p + (if pq = p then 1 else 0) := by
        simp [endCount, List.countP_cons]
      have hrun : runGraspFrom s (GraspEvent.ended pq :: rest) =
          runGraspFrom s' rest := rfl
      rw [hrun, hstart, hend]
      by_cases hq : pq = p
      · subst hq
        have h0 : cntPointer pq s'.GrabPointers = 0 := by
          rw [hgp, cntPointer_filter_self]
        rw [h0] at heq
        rw [if_pos rfl]
        exact ⟨by omega, hle⟩
      · have hS : cntPointer p s'.GrabPointers = cntPointer p s.GrabPointers := by
          rw [hgp, cntPointer_filter_ne p pq (fun hc => hq hc.symm)]
        rw [hS] at heq
        rw [if_neg hq]
        exact ⟨by omega, hle⟩

/-- C1 counterexample: two `GraspStarted` calls for pointer 0 without an
intervening `GraspEnded` leave two records for pointer 0, not the single
record the claimed invariant (exactly one record whenever starts exceed
ends) allows. -/
theorem grabPointers_duplicate_counterexample :
    ¬ (cntPointer 0 (runGraspFrom initialGrabbable doubleStartSeq).GrabPointers =
        if endCount doubleStartSeq 0 < startCount doubleStartSeq 0 then 1 else 0) := by
  have h2 : (runGraspFrom initialGrabbable doubleStartSeq).GrabPointers =
      [⟨some 0, 0, FTransform.mulT FTransform.identityT FTransform.identityT.inverse⟩,
       ⟨some 0, 0, FTransform.mulT FTransform.identityT FTransform.identityT.inverse⟩] := by
    show (GraspStarted (GraspStarted initialGrabbable 0 0 FTransform.identityT
        FTransform.identityT) 0 0 FTransform.identityT FTransform.identityT).GrabPointers = _
    rw [graspStarted_grabPointers, graspStarted_grabPointers]
    rfl
  have h1 : cntPointer 0 (runGraspFrom initialGrabbable doubleStartSeq).GrabPointers = 2 := by
    rw [h2]
    simp [cntPointer, List.countP_cons]
  rw [h1]
  have h3 : startCount doubleStartSeq 0 = 2 := by
    simp [startCount, doubleStartSeq, List.countP_cons]
  have h4 : endCount doubleStartSeq 0 = 0 := by
    simp [endCount, doubleStartSeq, List.countP_cons]
  rw [h3, h4]
  norm_num

/-- C1 (amended): for every well-formed call sequence — `GraspStarted`
only for a pointer with no record, `GraspEnded` only for a pointer with a
record — the record list holds exactly one record for each pointer whose
`GraspStarted` calls exceed its `GraspEnded` calls and none for any other
pointer: the records are exactly the currently-grasping pointers, without
duplicates. -/
theorem grabPointers_wellFormed_exact_invariant (evs : List GraspEvent)
    (h : wfGraspFrom initialGrabbable evs = true) (p : ℕ) :
    cntPointer p (runGraspFrom initialGrabbable evs).GrabPointers =
      if endCount evs p < startCount evs p then 1 else 0 := by
  obtain ⟨heq, hle⟩ := graspInvariantAux evs initialGrabbable h
    (fun q => by simp [initialGrabbable, cntPointer]) p
  have h0 : cntPointer p initialGrabbable.GrabPointers = 0 := by
    simp [initialGrabbable, cntPointer]
  rw [h0] at heq
  split_ifs with hlt
  · omega
  · omega

/-- Witness for C1 on the concrete sequence start 0, start 1, end 0. -/
theorem grabPointers_wellFormed_exact_invariant_witness :
    wfGraspFrom initialGrabbable wfSampleSeq = true ∧
    cntPointer 0 (runGraspFrom initialGrabbable wfSampleSeq).GrabPointers =
      (if endCount wfSampleSeq 0 < startCount wfSampleSeq 0 then 1 else 0) ∧
    cntPointer 1 (runGraspFrom initialGrabbable wfSampleSeq).GrabPointers =
      (if endCount wfSampleSeq 1 < startCount wfSampleSeq 1 then 1 else 0) :=
  ⟨by decide,
   grabPointers_wellFormed_exact_invariant wfSampleSeq (by decide) 0,
   grabPointers_wellFormed_exact_invariant wfSampleSeq (by decide) 1⟩
